import Mathlib

/-!
Verification of the financial-services-register-api client
(`src/financial_services_register_api/api.py`).

The embedding models decoded JSON values, the raw HTTP response state copied
into `FinancialServicesRegisterApiResponse`, the API constants, the URL
building performed by `common_search`, `_get_resource_info` and
`get_regulated_markets`, and the reference-number disambiguation routine
`_search_ref_number`.  Network transport is modelled as an explicit function
from request URLs to either a raw response or a transport-level exception;
each client operation returns its outcome together with the list of URLs it
requested, so that "no network call is made" is the statement that this
trace is empty.
-/

/-- A decoded JSON value, as produced by Python's standard `json` decoder
(the response wrapper calls `self.json()`; JSON parsing itself is delegated
to the standard decoder and is out of scope per the spec). -/
inductive Json where
  | null : Json
  | bool (b : Bool) : Json
  | num (n : Int) : Json
  | str (s : String) : Json
  | arr (elems : List Json) : Json
  | obj (fields : List (String × Json)) : Json

/-- First-match lookup in an association list of JSON object fields; decoded
Python dicts have unique keys, so first-match agrees with dict lookup. -/
def getEntry : List (String × Json) → String → Option Json
  | [], _ => none
  | (k, v) :: rest, key => if k = key then some v else getEntry rest key

/-- Python's `dict.get(key)`: `none` when the key is absent or the value is
not an object (no exception is raised). -/
def Json.get : Json → String → Option Json
  | .obj fields, key => getEntry fields key
  | _, _ => none

/-- Python truthiness of a decoded JSON value (`if res.data:` etc.). -/
def Json.isTruthy : Json → Bool
  | .null => false
  | .bool b => b
  | .num n => n != 0
  | .str s => !s.isEmpty
  | .arr elems => !elems.isEmpty
  | .obj fields => !fields.isEmpty

/-- Python truthiness of an optional JSON value (`None` is falsy). -/
def truthy : Option Json → Bool
  | none => false
  | some j => j.isTruthy

/-- The state of a raw `requests.Response`: HTTP status code, reason phrase,
and the body as decoded JSON. -/
structure RawResponse where
  status_code : Nat
  reason : String
  body : Json

/-- Modelled from the spec: `requests.Response.ok` / truthiness of the raw
response, which the spec describes as "truthiness indicating 2xx success"
(`requests` is an external library whose source is not part of this
repository). -/
def RawResponse.ok (r : RawResponse) : Bool :=
  decide (200 ≤ r.status_code ∧ r.status_code < 300)

/-- `FinancialServicesRegisterApiResponse`: the wrapper's `__init__` copies
the raw response's state (`self.__dict__.update(**response.__dict__)`). -/
structure FinancialServicesRegisterApiResponse where
  raw : RawResponse

/-- `self.json()`: the parsed JSON body of the copied response state. -/
def FinancialServicesRegisterApiResponse.json
    (r : FinancialServicesRegisterApiResponse) : Json :=
  r.raw.body

/-- The `status` property: `self.json().get('Status')`. -/
def FinancialServicesRegisterApiResponse.status
    (r : FinancialServicesRegisterApiResponse) : Option Json :=
  r.json.get "Status"

/-- The `resultinfo` property: `self.json().get('ResultInfo')`. -/
def FinancialServicesRegisterApiResponse.resultinfo
    (r : FinancialServicesRegisterApiResponse) : Option Json :=
  r.json.get "ResultInfo"

/-- The `message` property: `self.json().get('Message')`. -/
def FinancialServicesRegisterApiResponse.message
    (r : FinancialServicesRegisterApiResponse) : Option Json :=
  r.json.get "Message"

/-- The `data` property: `self.json().get('Data')`. -/
def FinancialServicesRegisterApiResponse.data
    (r : FinancialServicesRegisterApiResponse) : Option Json :=
  r.json.get "Data"

/-- Pass-through `ok` of the wrapper (the copied raw response state). -/
def FinancialServicesRegisterApiResponse.ok
    (r : FinancialServicesRegisterApiResponse) : Bool :=
  r.raw.ok

/-- Pass-through `reason` of the wrapper (the copied raw response state). -/
def FinancialServicesRegisterApiResponse.reason
    (r : FinancialServicesRegisterApiResponse) : String :=
  r.raw.reason

/-- Modelled from the spec: `API_CONSTANTS.BASEURL.value` (the `constants`
module is not under `src/`; its value is fixed by spec section 6 and by
`tests/units/test_constants.py`). -/
def BASEURL : String := "https://register.fca.org.uk/services/V0.1"

/-- Modelled from the spec: `API_CONSTANTS.API_VERSION.value`, fixed by the
spec and by `tests/units/test_constants.py`. -/
def API_VERSION : String := "V0.1"

/-- Modelled from the spec: `API_CONSTANTS.DEVELOPER_PORTAL.value`, the
upstream developer documentation URL the spec says response-shape errors
point to; the URL appears throughout the module's docstrings. -/
def DEVELOPER_PORTAL : String := "https://register.fca.org.uk/Developer/s/"

/-- One entry of the `RESOURCE_TYPES` constant dict. -/
structure ResourceTypeInfo where
  type_name : String
  endpoint_base : String

/-- Modelled from the spec: `API_CONSTANTS.RESOURCE_TYPES.value` (the
`constants` module is not under `src/`); the mapping firm to Firm, fund to
CIS, individual to Individuals is fixed by spec section 3 and by
`tests/units/test_constants.py`. -/
def RESOURCE_TYPES : List (String × ResourceTypeInfo) :=
  [("firm", ⟨"firm", "Firm"⟩),
   ("fund", ⟨"fund", "CIS"⟩),
   ("individual", ⟨"individual", "Individuals"⟩)]

/-- `resource_type in API_CONSTANTS.RESOURCE_TYPES.value` (dict-key
membership). -/
def isValidResourceType (resource_type : String) : Bool :=
  RESOURCE_TYPES.any (fun p => p.1 == resource_type)

/-- `RESOURCE_TYPES.value[key]['type_name']`. -/
def typeName (key : String) : String :=
  (((RESOURCE_TYPES.find? (fun p => p.1 == key)).map
    (fun p => p.2.type_name))).getD ""

/-- `RESOURCE_TYPES.value[key]['endpoint_base']`. -/
def endpointBase (key : String) : String :=
  (((RESOURCE_TYPES.find? (fun p => p.1 == key)).map
    (fun p => p.2.endpoint_base))).getD ""

/-- UTF-8 encoding of a single character, as used by Python's
`urllib.parse.quote` before percent-encoding. -/
def utf8Bytes (c : Char) : List Nat :=
  let n := c.toNat
  if n < 128 then [n]
  else if n < 2048 then
    [192 + n / 64, 128 + n % 64]
  else if n < 65536 then
    [224 + n / 4096, 128 + (n / 64) % 64, 128 + n % 64]
  else
    [240 + n / 262144, 128 + (n / 4096) % 64, 128 + (n / 64) % 64, 128 + n % 64]

/-- Upper-case hexadecimal digit for a value below 16. -/
def toHexChar (n : Nat) : Char :=
  if n < 10 then Char.ofNat (48 + n) else Char.ofNat (55 + n)

/-- Percent-encoding of one byte, upper-case as produced by
`urllib.parse.quote`. -/
def byteToPercent (b : Nat) : List Char :=
  ['%', toHexChar (b / 16), toHexChar (b % 16)]

/-- `urllib.parse.quote_plus` on one character with `safe=''` (as used by
`urlencode`): space becomes `+`, ASCII alphanumerics and `_.-~` are kept,
everything else is percent-encoded byte-wise. -/
def quotePlusChar (c : Char) : List Char :=
  if c = ' ' then ['+']
  else if c.isAlphanum || c = '_' || c = '.' || c = '-' || c = '~' then [c]
  else (utf8Bytes c).flatMap byteToPercent

/-- `urllib.parse.quote_plus` with `safe=''` on a string. -/
def quote_plus (s : String) : String :=
  ⟨s.data.flatMap quotePlusChar⟩

/-- `urllib.parse.urlencode` over an ordered list of key-value pairs
(Python dicts preserve insertion order). -/
def urlencode (pairs : List (String × String)) : String :=
  String.intercalate "&"
    (pairs.map (fun p => quote_plus p.1 ++ "=" ++ quote_plus p.2))

/-- The search URL built by `common_search`:
`f'{BASEURL}/Search?{urlencode({"q": name, "type": type})}'`. -/
def searchUrl (resource_name resource_type : String) : String :=
  BASEURL ++ "/Search?" ++ urlencode [("q", resource_name), ("type", resource_type)]

/-- The resource URL built by `_get_resource_info`:
`BASEURL / endpoint_base / ref_number`, and when the modifiers tuple is
truthy, `/`-joined modifiers are appended after one more `/`.  The source
appends the modifiers exactly as given. -/
def resourceUrl (resource_type resource_ref_number : String)
    (modifiers : List String) : String :=
  let url := BASEURL ++ "/" ++ endpointBase resource_type ++ "/"
      ++ resource_ref_number
  if modifiers.isEmpty then url
  else url ++ "/" ++ String.intercalate "/" modifiers

/-- Python's `str.strip('/')`: removes leading and trailing forward
slashes.  This is the normalization the docstring of `_get_resource_info`
claims is applied to modifier segments. -/
def stripSlashes (s : String) : String :=
  ⟨((s.data.dropWhile (fun c => c == '/')).reverse.dropWhile
    (fun c => c == '/')).reverse⟩

/-- The URL built by `get_regulated_markets`:
`f'{BASEURL}/CommonSearch?{urlencode({"q": "RM"})}'`. -/
def regulatedMarketsUrl : String :=
  BASEURL ++ "/" ++ "CommonSearch" ++ "?" ++ urlencode [("q", "RM")]

/-- The outcome of one `session.get(url)` call: a raw response, or a
`requests.RequestException` carrying a message. -/
inductive TransportResult where
  | success (r : RawResponse) : TransportResult
  | failure (e : String) : TransportResult

/-- The transport is the network: a function from request URL to outcome.
Client operations also return the list of URLs they requested, so an empty
list means no network call was made. -/
abbrev Transport := String → TransportResult

/-- The outcome of a client operation that returns a wrapped response. -/
inductive ClientResult where
  | response (r : FinancialServicesRegisterApiResponse) : ClientResult
  | valueError (msg : String) : ClientResult
  | requestError (e : String) : ClientResult
  | transportError (e : String) : ClientResult

/-- The `ValueError` message raised for an invalid resource type (the two
adjacent Python string literals concatenated). -/
def valueErrorMsg : String :=
  "Resource type must be one of the strings ``\"firm\"``, ``\"fund\"``, or ``\"individual\"``"

/-- `common_search(resource_name, resource_type)`: builds the search URL,
issues the GET through the session, wraps the response; a
`requests.RequestException` is caught and re-raised as
`FinancialServicesRegisterApiRequestException` (`ClientResult.requestError`).
No resource-type validation is performed.  The second component is the list
of URLs requested. -/
def common_search (transport : Transport)
    (resource_name resource_type : String) : ClientResult × List String :=
  let url := searchUrl resource_name resource_type
  match transport url with
  | .success raw => (.response ⟨raw⟩, [url])
  | .failure e => (.requestError e, [url])

/-- `_get_resource_info(resource_ref_number, resource_type, modifiers)`:
validates the resource type (raising `ValueError` before any network call),
builds the resource URL, issues the GET; a `requests.RequestException` is
caught and re-raised as `FinancialServicesRegisterApiRequestException`. -/
def get_resource_info (transport : Transport)
    (resource_ref_number resource_type : String)
    (modifiers : List String) : ClientResult × List String :=
  if !(isValidResourceType resource_type) then
    (.valueError valueErrorMsg, [])
  else
    let url := resourceUrl resource_type resource_ref_number modifiers
    match transport url with
    | .success raw => (.response ⟨raw⟩, [url])
    | .failure e => (.requestError e, [url])

/-- `get_regulated_markets()`: builds the fixed CommonSearch URL with
`q=RM` and issues the GET.  The source has no try/except here, so a
`requests.RequestException` propagates unwrapped
(`ClientResult.transportError`), unlike `common_search` and
`_get_resource_info`. -/
def get_regulated_markets (transport : Transport) :
    ClientResult × List String :=
  let url := regulatedMarketsUrl
  match transport url with
  | .success raw => (.response ⟨raw⟩, [url])
  | .failure e => (.transportError e, [url])

/-- The result of a Python subscription `x[k]`: a value, a `KeyError`
(caught by the `except KeyError` in `_search_ref_number`), or another
exception kind such as `TypeError`/`IndexError` (not caught there). -/
inductive PyGet where
  | val (v : Json) : PyGet
  | keyError : PyGet
  | otherError : PyGet

/-- Python `len` on a decoded JSON value: defined for lists, dicts and
strings; `TypeError` (modelled as `none`) otherwise. -/
def pyLen : Json → Option Nat
  | .arr elems => some elems.length
  | .obj fields => some fields.length
  | .str s => some s.length
  | _ => none

/-- Python `x[0]` on a decoded JSON value: list indexing, dict lookup of the
integer key `0` (always a `KeyError`, since decoded JSON dict keys are
strings), string character, `TypeError` otherwise. -/
def pyIndexZero : Json → PyGet
  | .arr elems =>
    match elems with
    | [] => .otherError
    | v :: _ => .val v
  | .obj _ => .keyError
  | .str s => if s.isEmpty then .otherError else .val (.str (s.take 1))
  | _ => .otherError

/-- Python `x[key]` with a string key: dict lookup with `KeyError` on a
missing key, `TypeError` on non-dicts. -/
def pyGetKey (j : Json) (key : String) : PyGet :=
  match j with
  | .obj fields =>
    match getEntry fields key with
    | some v => .val v
    | none => .keyError
  | _ => .otherError

/-- The record field read in the one-match case of `_search_ref_number`. -/
def refNumberKey : String := "Reference Number"

/-- The `FinancialServicesRegisterApiRequestException` message for a non-ok
search response, carrying the HTTP reason phrase. -/
def requestFailedMsg (reason : String) : String :=
  "API search request failed for an unknown reason: " ++
    (reason ++ ". Please check the search parameters and try again.")

/-- The `FinancialServicesRegisterApiRequestException` message for an ok
search response with an empty/null payload. -/
def noDataMsg : String :=
  "No data found in the API response. Please check the search parameters and try again."

/-- The `FinancialServicesRegisterApiResponseException` message for a
single matched record without the `"Reference Number"` field. -/
def responseExcMsg (resource_type resource_name : String) : String :=
  "Unexpected response data structure from the API for " ++
    (resource_type ++
      (" search by name \"" ++
        (resource_name ++
          ("\"! Please check the API developer documentation at " ++
            (DEVELOPER_PORTAL ++ ".")))))

/-- The outcome of `_search_ref_number`: a returned value, one of the three
exception kinds, an uncaught non-`KeyError` exception, or the implicit
`return None` fall-through of the Python function body. -/
inductive SearchResult where
  | retVal (v : Json) : SearchResult
  | valueError (msg : String) : SearchResult
  | requestError (msg : String) : SearchResult
  | responseError (msg : String) : SearchResult
  | uncaughtError : SearchResult
  | retNone : SearchResult

/-- The branch structure of `_search_ref_number` after the search response
has been obtained:
`if res.ok and res.data:` (one-match / many-match handling) /
`elif not res.ok:` (request exception with the reason phrase) /
`elif not res.data:` (request exception, no data found). -/
def processSearchResponse (resource_name resource_type : String)
    (res : FinancialServicesRegisterApiResponse) : SearchResult :=
  if res.ok && truthy res.data then
    match res.data with
    | some d =>
      match pyLen d with
      | none => .uncaughtError
      | some n =>
        if n = 1 then
          match pyIndexZero d with
          | .val rec =>
            match pyGetKey rec refNumberKey with
            | .val v => .retVal v
            | .keyError => .responseError (responseExcMsg resource_type resource_name)
            | .otherError => .uncaughtError
          | .keyError => .responseError (responseExcMsg resource_type resource_name)
          | .otherError => .uncaughtError
        else if n > 1 then .retVal d
        else .retNone
    | none => .retNone
  else if !res.ok then .requestError (requestFailedMsg res.reason)
  else if !(truthy res.data) then .requestError noDataMsg
  else .retNone

/-- `_search_ref_number(resource_name, resource_type)`: validates the
resource type before any network call, delegates the search to
`common_search`, re-raises a propagated
`FinancialServicesRegisterApiRequestException` unchanged, and otherwise
disambiguates the response payload. -/
def search_ref_number (transport : Transport)
    (resource_name resource_type : String) : SearchResult × List String :=
  if !(isValidResourceType resource_type) then
    (.valueError valueErrorMsg, [])
  else
    match common_search transport resource_name resource_type with
    | (.response res, trace) =>
      (processSearchResponse resource_name resource_type res, trace)
    | (.requestError e, trace) => (.requestError e, trace)
    | (.valueError e, trace) => (.valueError e, trace)
    | (.transportError _, trace) => (.uncaughtError, trace)

/-- `search_frn(firm_name)`: delegates to `_search_ref_number` with the
`type_name` of the `firm` resource type. -/
def search_frn (transport : Transport) (firm_name : String) :
    SearchResult × List String :=
  search_ref_number transport firm_name (typeName "firm")

/-- `search_irn(individual_name)`: delegates to `_search_ref_number` with
the `type_name` of the `individual` resource type. -/
def search_irn (transport : Transport) (individual_name : String) :
    SearchResult × List String :=
  search_ref_number transport individual_name (typeName "individual")

/-- `search_prn(fund_name)`: delegates to `_search_ref_number` with the
`type_name` of the `fund` resource type. -/
def search_prn (transport : Transport) (fund_name : String) :
    SearchResult × List String :=
  search_ref_number transport fund_name (typeName "fund")

/-- `needle` occurs as a contiguous substring of `hay`. -/
def strOccurs (needle hay : String) : Prop :=
  ∃ a b, hay = a ++ (needle ++ b)

/-- A transport that answers every request with the same raw response. -/
def mkSuccessTransport (raw : RawResponse) : Transport :=
  fun _ => .success raw

/-- A matched firm record as returned by the upstream search. -/
def sampleRecord : Json :=
  .obj [("Name", .str "Hastings Insurance Services Limited"),
        ("Type of business or Individual", .str "Firm"),
        ("Reference Number", .str "311492")]

/-- The envelope fields of a one-match search response body. -/
def sampleFields : List (String × Json) :=
  [("Status", .str "FSR-API-02-01-00"),
   ("Message", .str "Ok. Search successful"),
   ("ResultInfo", .obj [("page", .str "1"), ("total_count", .str "1")]),
   ("Data", .arr [sampleRecord])]

/-- A one-match search response body in the envelope shape. -/
def sampleBody : Json := .obj sampleFields

/-- A 200 response carrying `sampleBody`. -/
def sampleRaw : RawResponse := ⟨200, "OK", sampleBody⟩

/-- Transport answering every request with `sampleRaw`. -/
def sampleTransport : Transport := mkSuccessTransport sampleRaw

/-- First of two matched records for an ambiguous search. -/
def multiRecord1 : Json :=
  .obj [("Name", .str "Direct Line Insurance Plc"),
        ("Reference Number", .str "202684")]

/-- Second of two matched records for an ambiguous search. -/
def multiRecord2 : Json :=
  .obj [("Name", .str "Direct Line Group Limited"),
        ("Reference Number", .str "999999")]

/-- A many-match search response body. -/
def multiBody : Json :=
  .obj [("Status", .str "FSR-API-02-01-00"),
        ("Message", .str "Ok. Search successful"),
        ("ResultInfo", .obj [("page", .str "1"), ("total_count", .str "2")]),
        ("Data", .arr [multiRecord1, multiRecord2])]

/-- A 200 response carrying `multiBody`. -/
def multiRaw : RawResponse := ⟨200, "OK", multiBody⟩

/-- Transport answering every request with `multiRaw`. -/
def multiTransport : Transport := mkSuccessTransport multiRaw

/-- A matched record lacking the `"Reference Number"` field. -/
def noRefRecord : Json := .obj [("Name", .str "Odd Firm Limited")]

/-- A one-match response body whose record lacks `"Reference Number"`. -/
def noRefBody : Json :=
  .obj [("Status", .str "FSR-API-02-01-00"),
        ("Message", .str "Ok. Search successful"),
        ("ResultInfo", .obj [("page", .str "1")]),
        ("Data", .arr [noRefRecord])]

/-- A 200 response carrying `noRefBody`. -/
def noRefRaw : RawResponse := ⟨200, "OK", noRefBody⟩

/-- Transport answering every request with `noRefRaw`. -/
def noRefTransport : Transport := mkSuccessTransport noRefRaw

/-- A 404 response with a null body. -/
def raw404 : RawResponse := ⟨404, "Not Found", .null⟩

/-- A 200 response whose body is the empty JSON object. -/
def emptyObjRaw : RawResponse := ⟨200, "OK", .obj []⟩

/-- A transport on which every request fails with a
`requests.RequestException`. -/
def failingTransport : Transport :=
  fun _ => .failure "ConnectionError: connection refused"

/-- Claim C1: for every valid resource type and every 2xx search response
whose payload contains exactly one record in which the `"Reference Number"`
key is present (with its string value), `_search_ref_number` returns that
record's `"Reference Number"` field value as a string; `search_frn`,
`search_irn` and `search_prn` are `_search_ref_number` applied at the
respective resource types. -/
theorem search_ref_number_unique_match (transport : Transport)
    (resource_name resource_type : String) (raw : RawResponse)
    (rec : Json) (s : String)
    (hrt : isValidResourceType resource_type = true)
    (htr : transport (searchUrl resource_name resource_type) = .success raw)
    (hok : 200 ≤ raw.status_code ∧ raw.status_code < 300)
    (hdata : raw.body.get "Data" = some (.arr [rec]))
    (href : pyGetKey rec refNumberKey = .val (.str s)) :
    (search_ref_number transport resource_name resource_type).1
        = .retVal (.str s)
    ∧ search_frn transport resource_name
        = search_ref_number transport resource_name "firm"
    ∧ search_irn transport resource_name
        = search_ref_number transport resource_name "individual"
    ∧ search_prn transport resource_name
        = search_ref_number transport resource_name "fund" := by
  refine ⟨?_, rfl, rfl, rfl⟩
  have hokb : raw.ok = true := by
    simp [RawResponse.ok]
    omega
  simp [search_ref_number, hrt, common_search, htr, processSearchResponse,
    FinancialServicesRegisterApiResponse.ok,
    FinancialServicesRegisterApiResponse.data,
    FinancialServicesRegisterApiResponse.json, hokb, hdata, truthy,
    Json.isTruthy, pyLen, pyIndexZero, href]

/-- Witness for claim C1 at a concrete one-match search. -/
theorem search_ref_number_unique_match_witness :
    (isValidResourceType "firm" = true
      ∧ sampleTransport (searchUrl "Hastings Insurance Services Limited" "firm")
          = .success sampleRaw
      ∧ (200 ≤ sampleRaw.status_code ∧ sampleRaw.status_code < 300)
      ∧ sampleRaw.body.get "Data" = some (.arr [sampleRecord])
      ∧ pyGetKey sampleRecord refNumberKey = .val (.str "311492"))
    ∧ ((search_ref_number sampleTransport
          "Hastings Insurance Services Limited" "firm").1
            = .retVal (.str "311492")
      ∧ search_frn sampleTransport "Hastings Insurance Services Limited"
          = search_ref_number sampleTransport
              "Hastings Insurance Services Limited" "firm"
      ∧ search_irn sampleTransport "Hastings Insurance Services Limited"
          = search_ref_number sampleTransport
              "Hastings Insurance Services Limited" "individual"
      ∧ search_prn sampleTransport "Hastings Insurance Services Limited"
          = search_ref_number sampleTransport
              "Hastings Insurance Services Limited" "fund") :=
  ⟨⟨rfl, rfl, by decide, rfl, rfl⟩,
    search_ref_number_unique_match sampleTransport
      "Hastings Insurance Services Limited" "firm" sampleRaw sampleRecord
      "311492" rfl rfl (by decide) rfl rfl⟩

/-- Claim C2: for every valid resource type and every 2xx search response
whose payload contains more than one record, `_search_ref_number` returns
the full payload list unchanged (hence with the same length and the same
record mappings in the same order). -/
theorem search_ref_number_multiple_matches (transport : Transport)
    (resource_name resource_type : String) (raw : RawResponse)
    (records : List Json)
    (hrt : isValidResourceType resource_type = true)
    (htr : transport (searchUrl resource_name resource_type) = .success raw)
    (hok : 200 ≤ raw.status_code ∧ raw.status_code < 300)
    (hdata : raw.body.get "Data" = some (.arr records))
    (hlen : 1 < records.length) :
    (search_ref_number transport resource_name resource_type).1
        = .retVal (.arr records)
    ∧ pyLen (.arr records) = some records.length := by
  refine ⟨?_, rfl⟩
  have hokb : raw.ok = true := by
    simp [RawResponse.ok]
    omega
  cases records with
  | nil => simp at hlen
  | cons r rest =>
    have h1 : ¬ (rest.length + 1 = 1) := by
      simp at hlen
      omega
    have h2 : rest.length + 1 > 1 := by
      simp at hlen
      omega
    simp [search_ref_number, hrt, common_search, htr, processSearchResponse,
      FinancialServicesRegisterApiResponse.ok,
      FinancialServicesRegisterApiResponse.data,
      FinancialServicesRegisterApiResponse.json, hokb, hdata, truthy,
      Json.isTruthy, pyLen, h1, h2]

/-- Witness for claim C2 at a concrete two-match search. -/
theorem search_ref_number_multiple_matches_witness :
    (isValidResourceType "firm" = true
      ∧ multiTransport (searchUrl "direct line" "firm") = .success multiRaw
      ∧ (200 ≤ multiRaw.status_code ∧ multiRaw.status_code < 300)
      ∧ multiRaw.body.get "Data" = some (.arr [multiRecord1, multiRecord2])
      ∧ 1 < ([multiRecord1, multiRecord2] : List Json).length)
    ∧ ((search_ref_number multiTransport "direct line" "firm").1
          = .retVal (.arr [multiRecord1, multiRecord2])
      ∧ pyLen (.arr [multiRecord1, multiRecord2])
          = some ([multiRecord1, multiRecord2] : List Json).length) :=
  ⟨⟨rfl, rfl, by decide, rfl, by decide⟩,
    search_ref_number_multiple_matches multiTransport "direct line" "firm"
      multiRaw [multiRecord1, multiRecord2] rfl rfl (by decide) rfl
      (by decide)⟩

/-- Claim C5: for every resource-type string outside the three enumerated
values, `_search_ref_number` raises `ValueError` immediately, with zero
transport invocations (empty request trace). -/
theorem search_ref_number_invalid_resource_type (transport : Transport)
    (resource_name resource_type : String)
    (h : isValidResourceType resource_type = false) :
    search_ref_number transport resource_name resource_type
      = (.valueError valueErrorMsg, []) := by
  simp [search_ref_number, h]

/-- Witness for claim C5 at a concrete invalid resource type. -/
theorem search_ref_number_invalid_resource_type_witness :
    isValidResourceType "company" = false
    ∧ search_ref_number sampleTransport "Acme" "company"
        = (.valueError valueErrorMsg, []) :=
  ⟨rfl,
    search_ref_number_invalid_resource_type sampleTransport "Acme" "company"
      rfl⟩



/-- Claim C4: for every valid resource type and 2xx search response whose
payload contains exactly one record lacking the `"Reference Number"` key,
`_search_ref_number` raises
`FinancialServicesRegisterApiResponseException` with a message that names
the resource type and the searched name and points to the upstream
developer documentation. -/
theorem search_ref_number_missing_reference_number (transport : Transport)
    (resource_name resource_type : String) (raw : RawResponse) (rec : Json)
    (hrt : isValidResourceType resource_type = true)
    (htr : transport (searchUrl resource_name resource_type) = .success raw)
    (hok : 200 ≤ raw.status_code ∧ raw.status_code < 300)
    (hdata : raw.body.get "Data" = some (.arr [rec]))
    (href : pyGetKey rec refNumberKey = .keyError) :
    (search_ref_number transport resource_name resource_type).1
        = .responseError (responseExcMsg resource_type resource_name)
    ∧ strOccurs resource_type (responseExcMsg resource_type resource_name)
    ∧ strOccurs resource_name (responseExcMsg resource_type resource_name)
    ∧ strOccurs DEVELOPER_PORTAL
        (responseExcMsg resource_type resource_name) := by
  have hokb : raw.ok = true := by
    simp [RawResponse.ok]
    omega
  refine ⟨?_, ?_, ?_, ?_⟩
  · simp [search_ref_number, hrt, common_search, htr, processSearchResponse,
      FinancialServicesRegisterApiResponse.ok,
      FinancialServicesRegisterApiResponse.data,
      FinancialServicesRegisterApiResponse.json, hokb, hdata, truthy,
      Json.isTruthy, pyLen, pyIndexZero, href]
  · exact ⟨"Unexpected response data structure from the API for ",
      " search by name \"" ++ (resource_name ++
        ("\"! Please check the API developer documentation at " ++
          (DEVELOPER_PORTAL ++ "."))), rfl⟩
  · refine ⟨"Unexpected response data structure from the API for " ++
        (resource_type ++ " search by name \""),
      "\"! Please check the API developer documentation at " ++
        (DEVELOPER_PORTAL ++ "."), ?_⟩
    simp [responseExcMsg, String.append_assoc]
  · refine ⟨"Unexpected response data structure from the API for " ++
        (resource_type ++ (" search by name \"" ++ (resource_name ++
          "\"! Please check the API developer documentation at "))),
      ".", ?_⟩
    simp [responseExcMsg, String.append_assoc]

/-- Witness for claim C4 at a concrete one-match response whose record
lacks the `"Reference Number"` field. -/
theorem search_ref_number_missing_reference_number_witness :
    (isValidResourceType "firm" = true
      ∧ noRefTransport (searchUrl "Odd Firm" "firm") = .success noRefRaw
      ∧ noRefRaw.body.get "Data" = some (.arr [noRefRecord])
      ∧ pyGetKey noRefRecord refNumberKey = .keyError)
    ∧ ((search_ref_number noRefTransport "Odd Firm" "firm").1
          = .responseError (responseExcMsg "firm" "Odd Firm")
      ∧ strOccurs "firm" (responseExcMsg "firm" "Odd Firm")
      ∧ strOccurs "Odd Firm" (responseExcMsg "firm" "Odd Firm")
      ∧ strOccurs DEVELOPER_PORTAL (responseExcMsg "firm" "Odd Firm")) :=
  ⟨⟨rfl, rfl, rfl, rfl⟩,
    search_ref_number_missing_reference_number noRefTransport "Odd Firm"
      "firm" noRefRaw noRefRecord rfl rfl (by decide) rfl rfl⟩

/-- Claim C6 counterexample: `common_search` performs no resource-type
validation: called with the invalid resource type `"bogus"` it still
issues a network request (one URL in the trace) and returns a wrapped
response rather than failing with a caller error. -/
theorem common_search_skips_resource_type_validation :
    isValidResourceType "bogus" = false
    ∧ (common_search sampleTransport "Acme" "bogus").2
        = [searchUrl "Acme" "bogus"]
    ∧ (common_search sampleTransport "Acme" "bogus").1
        = .response ⟨sampleRaw⟩ :=
  ⟨rfl, rfl, rfl⟩

/-- Claim C6 (amended): `_search_ref_number` and `_get_resource_info`
detect an invalid resource type as a caller error (`ValueError`) before
any network call (empty request trace); `common_search` performs no
resource-type validation and issues the request with the given type
regardless. -/
theorem resource_type_validation_amended (transport : Transport)
    (resource_name resource_ref_number resource_type : String)
    (modifiers : List String)
    (h : isValidResourceType resource_type = false) :
    search_ref_number transport resource_name resource_type
        = (.valueError valueErrorMsg, [])
    ∧ get_resource_info transport resource_ref_number resource_type modifiers
        = (.valueError valueErrorMsg, [])
    ∧ (common_search transport resource_name resource_type).2
        = [searchUrl resource_name resource_type] := by
  refine ⟨by simp [search_ref_number, h], by simp [get_resource_info, h], ?_⟩
  unfold common_search
  cases htr : transport (searchUrl resource_name resource_type) <;> simp [htr]

/-- Witness for the amended claim C6 at a concrete invalid resource type. -/
theorem resource_type_validation_amended_witness :
    isValidResourceType "bogus" = false
    ∧ (search_ref_number sampleTransport "Acme" "bogus"
          = (.valueError valueErrorMsg, [])
      ∧ get_resource_info sampleTransport "122702" "bogus" ["Names"]
          = (.valueError valueErrorMsg, [])
      ∧ (common_search sampleTransport "Acme" "bogus").2
          = [searchUrl "Acme" "bogus"]) :=
  ⟨rfl,
    resource_type_validation_amended sampleTransport "Acme" "122702" "bogus"
      ["Names"] rfl⟩

/-- Claim C7 (code bug): the docstring of `_get_resource_info` states that
leading or trailing forward slashes on modifier segments are stripped
before the request, but the source appends the modifier segments exactly
as given, so a modifier with a leading slash yields a different (malformed)
URL than its stripped form, and that malformed URL is what gets
requested. -/
theorem get_resource_info_does_not_strip_slashes :
    resourceUrl "firm" "122702" ["/Names"]
        = "https://register.fca.org.uk/services/V0.1/Firm/122702//Names"
    ∧ stripSlashes "/Names" = "Names"
    ∧ resourceUrl "firm" "122702" [stripSlashes "/Names"]
        = "https://register.fca.org.uk/services/V0.1/Firm/122702/Names"
    ∧ resourceUrl "firm" "122702" ["/Names"]
        ≠ resourceUrl "firm" "122702" [stripSlashes "/Names"]
    ∧ (get_resource_info sampleTransport "122702" "firm" ["/Names"]).2
        = ["https://register.fca.org.uk/services/V0.1/Firm/122702//Names"] :=
  ⟨rfl, rfl, rfl, by decide, rfl⟩

/-- Claim C8: constructing the wrapper from a raw response whose body
parses as a JSON object and reading the four accessors yields exactly the
body's `Status`, `Message`, `ResultInfo` and `Data` fields, with no
transformation of those values. -/
theorem response_accessor_roundtrip (raw : RawResponse)
    (fields : List (String × Json)) (h : raw.body = .obj fields) :
    (FinancialServicesRegisterApiResponse.mk raw).status
        = getEntry fields "Status"
    ∧ (FinancialServicesRegisterApiResponse.mk raw).message
        = getEntry fields "Message"
    ∧ (FinancialServicesRegisterApiResponse.mk raw).resultinfo
        = getEntry fields "ResultInfo"
    ∧ (FinancialServicesRegisterApiResponse.mk raw).data
        = getEntry fields "Data" := by
  refine ⟨?_, ?_, ?_, ?_⟩ <;>
    simp [FinancialServicesRegisterApiResponse.status,
      FinancialServicesRegisterApiResponse.message,
      FinancialServicesRegisterApiResponse.resultinfo,
      FinancialServicesRegisterApiResponse.data,
      FinancialServicesRegisterApiResponse.json, h, Json.get]

/-- Witness for claim C8 at a concrete envelope body. -/
theorem response_accessor_roundtrip_witness :
    sampleRaw.body = .obj sampleFields
    ∧ ((FinancialServicesRegisterApiResponse.mk sampleRaw).status
          = getEntry sampleFields "Status"
      ∧ (FinancialServicesRegisterApiResponse.mk sampleRaw).message
          = getEntry sampleFields "Message"
      ∧ (FinancialServicesRegisterApiResponse.mk sampleRaw).resultinfo
          = getEntry sampleFields "ResultInfo"
      ∧ (FinancialServicesRegisterApiResponse.mk sampleRaw).data
          = getEntry sampleFields "Data") :=
  ⟨rfl, response_accessor_roundtrip sampleRaw sampleFields rfl⟩

/-- Claim C9 counterexample: on a transport failure,
`get_regulated_markets` propagates the raw `requests.RequestException`
unwrapped instead of re-raising it as
`FinancialServicesRegisterApiRequestException` (the same failing transport
produces the request-exception kind in `common_search`). -/
theorem get_regulated_markets_transport_error_unwrapped :
    (get_regulated_markets failingTransport).1
        = .transportError "ConnectionError: connection refused"
    ∧ (get_regulated_markets failingTransport).1
        ≠ .requestError "ConnectionError: connection refused"
    ∧ (common_search failingTransport "Acme" "firm").1
        = .requestError "ConnectionError: connection refused" :=
  ⟨rfl, fun h => ClientResult.noConfusion h, rfl⟩

/-- Claim C9 (amended): `get_regulated_markets` issues exactly one GET to
the fixed CommonSearch endpoint with the constant query parameter `q=RM`
and returns the wrapped response unfiltered; a transport-level failure
during that call propagates as the underlying transport exception, not
wrapped into `FinancialServicesRegisterApiRequestException`. -/
theorem get_regulated_markets_amended (transport : Transport)
    (raw : RawResponse) (e : String) :
    (get_regulated_markets transport).2 = [regulatedMarketsUrl]
    ∧ regulatedMarketsUrl
        = "https://register.fca.org.uk/services/V0.1/CommonSearch?q=RM"
    ∧ (transport regulatedMarketsUrl = .success raw →
        (get_regulated_markets transport).1 = .response ⟨raw⟩)
    ∧ (transport regulatedMarketsUrl = .failure e →
        (get_regulated_markets transport).1 = .transportError e) := by
  refine ⟨?_, rfl, ?_, ?_⟩
  · unfold get_regulated_markets
    cases htr : transport regulatedMarketsUrl <;> simp [htr]
  · intro h
    simp [get_regulated_markets, h]
  · intro h
    simp [get_regulated_markets, h]

/-- Witness for the amended claim C9 at a concrete failing transport. -/
theorem get_regulated_markets_amended_witness :
    (get_regulated_markets failingTransport).2 = [regulatedMarketsUrl]
    ∧ regulatedMarketsUrl
        = "https://register.fca.org.uk/services/V0.1/CommonSearch?q=RM"
    ∧ (failingTransport regulatedMarketsUrl = .success raw404 →
        (get_regulated_markets failingTransport).1 = .response ⟨raw404⟩)
    ∧ (failingTransport regulatedMarketsUrl
          = .failure "ConnectionError: connection refused" →
        (get_regulated_markets failingTransport).1
          = .transportError "ConnectionError: connection refused") :=
  get_regulated_markets_amended failingTransport raw404
    "ConnectionError: connection refused"

/-- The envelope fields of a body carrying `Status`, `Message` and
`ResultInfo` but missing only the `Data` field. -/
def noDataFields : List (String × Json) :=
  [("Status", .str "FSR-API-04-01-11"),
   ("Message", .str "No search result found"),
   ("ResultInfo", .obj [("page", .str "1")])]

/-- A 200 response whose body carries every envelope field except `Data`. -/
def noDataOnlyRaw : RawResponse := ⟨200, "OK", .obj noDataFields⟩

/-- Claim C10: for every parsed JSON-object body, each of the four wrapper
accessors returns `None` rather than raising whenever its own envelope
field is absent from the object, independently of whether the other three
fields are present (the lookups use the defaulting `dict.get`). -/
theorem response_accessor_missing_fields_none (raw : RawResponse)
    (fields : List (String × Json)) (h : raw.body = .obj fields) :
    (getEntry fields "Status" = none →
      (FinancialServicesRegisterApiResponse.mk raw).status = none)
    ∧ (getEntry fields "Message" = none →
      (FinancialServicesRegisterApiResponse.mk raw).message = none)
    ∧ (getEntry fields "ResultInfo" = none →
      (FinancialServicesRegisterApiResponse.mk raw).resultinfo = none)
    ∧ (getEntry fields "Data" = none →
      (FinancialServicesRegisterApiResponse.mk raw).data = none) := by
  refine ⟨fun hx => ?_, fun hx => ?_, fun hx => ?_, fun hx => ?_⟩ <;>
    simp [FinancialServicesRegisterApiResponse.status,
      FinancialServicesRegisterApiResponse.message,
      FinancialServicesRegisterApiResponse.resultinfo,
      FinancialServicesRegisterApiResponse.data,
      FinancialServicesRegisterApiResponse.json, h, Json.get, hx]

/-- Witness for claim C10 at a concrete body carrying every envelope field
except `Data`: only the `data` accessor's field is absent, and that
accessor returns `None` while the other fields remain present. -/
theorem response_accessor_missing_fields_none_witness :
    (noDataOnlyRaw.body = Json.obj noDataFields
      ∧ getEntry noDataFields "Data" = none
      ∧ getEntry noDataFields "Status" = some (.str "FSR-API-04-01-11"))
    ∧ (FinancialServicesRegisterApiResponse.mk noDataOnlyRaw).data = none :=
  ⟨⟨rfl, rfl, rfl⟩,
    (response_accessor_missing_fields_none noDataOnlyRaw noDataFields
      rfl).2.2.2 rfl⟩
